import Mathlib

/-!
# Robot fleet dashboard: state, metrics, filtering and location toggle

A shallow embedding of `frontend/src/compunts/RobotDoard.jsx` (the React
component `RobotDashboard`).

Modelling decisions.

* A JavaScript string is a sequence of characters (`JSString`).
  `String.prototype.toLowerCase` is a built-in of the JavaScript runtime and
  not part of the repository, so every definition that calls it takes it as the
  parameter `toLowerCase`.  `String.prototype.includes` is embedded as a scan
  over the start positions (`includes`).
* A JSON number is a rational (`ℚ`): every finite double is one, and `<`, `<=`
  and `===` on finite doubles agree with the order and equality of `ℚ`.
* A robot is a record with the seven keys the component reads.  The value
  under `'Robot ID'` is `none` when it is missing or not a string: calling
  `.toLowerCase()` on it throws a `TypeError`, which the embedding keeps
  (`filteredRobots` returns an `Except`).  The other fields have the types of
  the data model.
* The body of a pull response or of a push message is `null`/`undefined`
  (`Payload.nullish`), on which reading `.robots` throws a `TypeError`, or a
  value whose `robots` key holds an array or is missing (`Payload.object`).
* The component state is the five `useState` cells.  Each event handler is one
  atomic transition on that state.  A listener that throws leaves the state as
  its completed writes made it (`Outcome`).
-/

namespace RobotDashboard

/-- A JavaScript string. -/
abbrev JSString := List Char

/-- An exception value: a `TypeError` thrown by the JavaScript runtime, or the
error a rejected `axios.get` carries. -/
inductive JSError where
  | typeError
  | requestError
  deriving DecidableEq

/-- The value of `'Location Coordinates'`: the array `[latitude, longitude]`. -/
abbrev Location := ℚ × ℚ

/-- One element of the `robots` array. -/
structure Robot where
  /-- Key `'Robot ID'`; `none` when the key is missing or its value is not a string. -/
  robotId : Option JSString
  /-- Key `'Online/Offline'`. -/
  online : Bool
  /-- Key `'Battery Percentage'`. -/
  batteryPercentage : ℚ
  /-- Key `'CPU Usage'`. -/
  cpuUsage : ℚ
  /-- Key `'RAM Consumption'`. -/
  ramConsumption : ℚ
  /-- Key `'Last Updated'`. -/
  lastUpdated : JSString
  /-- Key `'Location Coordinates'`. -/
  locationCoordinates : Location
  deriving DecidableEq

/-- The object held in the `robotStats` state cell. -/
structure RobotStats where
  totalRobots : Nat
  totalOnline : Nat
  lowBattery : Nat
  deriving DecidableEq

/-- The body of a pull response (`response.data`) or of a push message (`data`). -/
inductive Payload where
  /-- The body is `null` or `undefined`: reading a property of it throws. -/
  | nullish
  /-- Any other body, of the shape `{ robots: [...] }`; `robots` is `none` when
  the key is missing (reading it gives `undefined`). -/
  | object (robots : Option (List Robot))
  deriving DecidableEq

/-- The `useState` cells of the component (lines 13-21). -/
structure DashboardState where
  robots : List Robot
  searchQuery : JSString
  robotStats : RobotStats
  selectedLocation : Option Location
  filterVisible : Bool
  deriving DecidableEq

/-- The initial values passed to `useState` (lines 13-21). -/
def initialState : DashboardState where
  robots := []
  searchQuery := []
  robotStats := { totalRobots := 0, totalOnline := 0, lowBattery := 0 }
  selectedLocation := none
  filterVisible := false

/-! ## Setters returned by `useState` -/

def setRobots (value : List Robot) (s : DashboardState) : DashboardState :=
  { s with robots := value }

def setSearchQuery (value : JSString) (s : DashboardState) : DashboardState :=
  { s with searchQuery := value }

def setRobotStats (value : RobotStats) (s : DashboardState) : DashboardState :=
  { s with robotStats := value }

def setSelectedLocation (value : Option Location) (s : DashboardState) : DashboardState :=
  { s with selectedLocation := value }

def setFilterVisible (value : Bool) (s : DashboardState) : DashboardState :=
  { s with filterVisible := value }

/-! ## Event handlers -/

/-- Lines 36-46: `calculateStats`. -/
def calculateStats (robotsData : List Robot) (s : DashboardState) : DashboardState :=
  let totalRobots := robotsData.length
  let totalOnline := (robotsData.filter (fun robot => robot.online)).length
  let lowBattery := (robotsData.filter (fun robot => decide (robot.batteryPercentage < 20))).length
  setRobotStats { totalRobots := totalRobots, totalOnline := totalOnline, lowBattery := lowBattery } s

/-- Line 135: `isLowBattery`, the test that marks a table row as low on battery. -/
def isLowBattery (robot : Robot) : Bool :=
  decide (robot.batteryPercentage ≤ 20)

/-- The expression `x.robots || []` (lines 28-29 and 64-65): reading `.robots`
of `null` or `undefined` throws a `TypeError`, an array is truthy, and a
missing key reads as `undefined`, which is falsy. -/
def robotsOrEmpty : Payload → Except JSError (List Robot)
  | .nullish => .error .typeError
  | .object (some robots) => .ok robots
  | .object none => .ok []

/-- What a listener leaves behind: the state after the writes it completed, and
the exception it threw, if any. -/
structure Outcome where
  state : DashboardState
  thrown : Option JSError
  deriving DecidableEq

/-- Lines 24-33: `fetchRobots`, resumed with the outcome of `axios.get`.
A rejected request, and an exception thrown at line 28 or 29, go to the `catch`
branch, which only logs: the writes completed before the exception stay. -/
def fetchRobots (response : Except JSError Payload) (s : DashboardState) : DashboardState :=
  match response with
  | .error _ => s
  | .ok data =>
    match robotsOrEmpty data with
    | .error _ => s
    | .ok robots =>
      match robotsOrEmpty data with
      | .error _ => setRobots robots s
      | .ok robotsData => calculateStats robotsData (setRobots robots s)

/-- Lines 62-66: the listener registered with `socket.on('message', ...)`.
Nothing catches an exception thrown at line 64 or 65. -/
def onMessage (data : Payload) (s : DashboardState) : Outcome :=
  match robotsOrEmpty data with
  | .error e => { state := s, thrown := some e }
  | .ok robots =>
    match robotsOrEmpty data with
    | .error e => { state := setRobots robots s, thrown := some e }
    | .ok robotsData =>
      { state := calculateStats robotsData (setRobots robots s), thrown := none }

/-- Lines 49-51: `handleSearchChange`, with `value` standing for `event.target.value`. -/
def handleSearchChange (value : JSString) (s : DashboardState) : DashboardState :=
  setSearchQuery value s

/-- Lines 74-84: `handleShowLocation`. -/
def handleShowLocation (location : Location) (s : DashboardState) : DashboardState :=
  match s.selectedLocation with
  | some selectedLocation =>
    if selectedLocation.1 = location.1 ∧ selectedLocation.2 = location.2 then
      setSelectedLocation none s
    else
      setSelectedLocation (some location) s
  | none => setSelectedLocation (some location) s

/-- Lines 87-89: `toggleFilter`. -/
def toggleFilter (s : DashboardState) : DashboardState :=
  setFilterVisible (!s.filterVisible) s

/-! ## The filtered view -/

/-- `String.prototype.includes`: is there a start position in `s` at which
`searchString` occurs? -/
def includes : JSString → JSString → Bool
  | [], searchString => searchString.isPrefixOf []
  | c :: cs, searchString => searchString.isPrefixOf (c :: cs) || includes cs searchString

/-- `Array.prototype.filter` with a callback that may throw: the elements are
visited in index order and the first exception aborts the call. -/
def arrayFilter {α : Type} (callback : α → Except JSError Bool) :
    List α → Except JSError (List α)
  | [] => .ok []
  | x :: xs =>
    match callback x with
    | .error e => .error e
    | .ok keep =>
      match arrayFilter callback xs with
      | .error e => .error e
      | .ok kept => .ok (if keep then x :: kept else kept)

/-- Line 55: the callback of `filteredRobots`.  `robot['Robot ID'].toLowerCase()`
throws a `TypeError` unless the id is a string. -/
def matchesQuery (toLowerCase : JSString → JSString) (searchQuery : JSString)
    (robot : Robot) : Except JSError Bool :=
  match robot.robotId with
  | none => .error .typeError
  | some id => .ok (includes (toLowerCase id) (toLowerCase searchQuery))

/-- Lines 54-56: `filteredRobots`, computed on every render. -/
def filteredRobots (toLowerCase : JSString → JSString) (robots : List Robot)
    (searchQuery : JSString) : Except JSError (List Robot) :=
  arrayFilter (matchesQuery toLowerCase searchQuery) robots

/-! ## The component as a transition system -/

/-- What the component reacts to. -/
inductive Event where
  /-- The request of `fetchRobots` resolved with body `data`. -/
  | pullResolved (data : Payload)
  /-- The request of `fetchRobots` was rejected. -/
  | pullRejected
  /-- A push message with body `data` arrived on the socket. -/
  | message (data : Payload)
  /-- The search box changed, or a filter shortcut set the query. -/
  | searchChange (value : JSString)
  /-- A show/hide location button was clicked. -/
  | showLocation (location : Location)
  /-- The filter icon was clicked. -/
  | filterClick

/-- One reaction of the component: the state the handler leaves behind. -/
def step (s : DashboardState) : Event → DashboardState
  | .pullResolved data => fetchRobots (.ok data) s
  | .pullRejected => fetchRobots (.error .requestError) s
  | .message data => (onMessage data s).state
  | .searchChange value => handleSearchChange value s
  | .showLocation location => handleShowLocation location s
  | .filterClick => toggleFilter s

/-- The state after a sequence of events, in the order they completed. -/
def run (s : DashboardState) (events : List Event) : DashboardState :=
  events.foldl step s

/-- A lower-casing of the ASCII letters, used on concrete inputs. -/
def asciiLower (s : JSString) : JSString :=
  s.map Char.toLower

def r1 : Robot :=
  { robotId := some "R1".toList, online := true, batteryPercentage := 15, cpuUsage := 10,
    ramConsumption := 512, lastUpdated := "t0".toList, locationCoordinates := (1, 2) }

def r2 : Robot :=
  { robotId := some "R2".toList, online := false, batteryPercentage := 80, cpuUsage := 20,
    ramConsumption := 256, lastUpdated := "t0".toList, locationCoordinates := (3, 4) }

def bot1 : Robot :=
  { robotId := some "Bot1".toList, online := true, batteryPercentage := 55, cpuUsage := 7,
    ramConsumption := 64, lastUpdated := "t0".toList, locationCoordinates := (7, 8) }

def r20 : Robot :=
  { robotId := some "R20".toList, online := true, batteryPercentage := 20, cpuUsage := 5,
    ramConsumption := 128, lastUpdated := "t0".toList, locationCoordinates := (5, 6) }

/-! ## Reference notions used to state the properties -/

/-- The `robots` field of a body: `none` when the body has no such field. -/
def robotsField : Payload → Option (List Robot)
  | .nullish => none
  | .object robots => robots

/-- The `robots` field delivered by an arrival event that did not fail: a
resolved pull or a push message whose body is not `null`/`undefined`.  An
arrival with a `null`/`undefined` body fails, like a rejected pull: its
handler throws before it writes anything. -/
def arrivalRobots : Event → Option (Option (List Robot))
  | .pullResolved (.object robots) => some robots
  | .message (.object robots) => some robots
  | _ => none

/-- The robots of the last arrival event that did not fail: the array under
its `robots` key, the empty sequence when that key is missing, and the empty
sequence when no arrival succeeded. -/
def lastSnapshot (events : List Event) : List Robot :=
  match (events.filterMap arrivalRobots).getLast? with
  | some (some robots) => robots
  | some none => []
  | none => []

/-- The state that holds the two robots `r1`, `r2` after one push message. -/
def holdingTwo : DashboardState :=
  run initialState [.message (.object (some [r1, r2]))]

/-- The lowercased id of `robot` contains the lowercased `searchQuery` as a
contiguous substring. -/
def IdContains (toLowerCase : JSString → JSString) (searchQuery : JSString)
    (robot : Robot) : Prop :=
  ∃ id, robot.robotId = some id ∧ toLowerCase searchQuery <:+: toLowerCase id

/-- The same robot with its id rewritten by `f`. -/
def mapId (f : JSString → JSString) (robot : Robot) : Robot :=
  { robot with robotId := robot.robotId.map f }

/-- The test applied by `filteredRobots` when no id is missing. -/
def keeps (toLowerCase : JSString → JSString) (searchQuery : JSString) (robot : Robot) : Bool :=
  match robot.robotId with
  | some id => includes (toLowerCase id) (toLowerCase searchQuery)
  | none => false

/-! ## Lemmas -/

theorem includes_iff (s t : JSString) : includes s t = true ↔ t <:+: s := by
  induction s with
  | nil => simp [includes]
  | cons c cs ih => simp [includes, ih, List.infix_cons_iff]

theorem arrayFilter_total {α : Type} (callback : α → Except JSError Bool) (p : α → Bool)
    (xs : List α) (h : ∀ x ∈ xs, callback x = .ok (p x)) :
    arrayFilter callback xs = .ok (xs.filter p) := by
  induction xs with
  | nil => rfl
  | cons x xs ih =>
    have hx := h x (List.mem_cons_self x xs)
    have hxs := ih (fun y hy => h y (List.mem_cons_of_mem x hy))
    simp only [arrayFilter, hx, hxs, List.filter_cons]

theorem arrayFilter_congr {α : Type} (f g : α → Except JSError Bool) (xs : List α)
    (h : ∀ x ∈ xs, f x = g x) : arrayFilter f xs = arrayFilter g xs := by
  induction xs with
  | nil => rfl
  | cons x xs ih =>
    have hx := h x (List.mem_cons_self x xs)
    have hxs := ih (fun y hy => h y (List.mem_cons_of_mem x hy))
    simp only [arrayFilter, hx, hxs]

theorem arrayFilter_map {α : Type} (f : α → Except JSError Bool) (g : α → α) (xs : List α)
    (h : ∀ x ∈ xs, f (g x) = f x) :
    arrayFilter f (xs.map g) = (arrayFilter f xs).map (List.map g) := by
  induction xs with
  | nil => rfl
  | cons x xs ih =>
    have hx := h x (List.mem_cons_self x xs)
    have hxs := ih (fun y hy => h y (List.mem_cons_of_mem x hy))
    simp only [List.map_cons, arrayFilter, hx, hxs]
    cases f x with
    | error e => rfl
    | ok keep =>
      cases arrayFilter f xs with
      | error e => rfl
      | ok kept => cases keep <;> rfl

theorem matchesQuery_of_isSome (toLowerCase : JSString → JSString) (q : JSString) (r : Robot)
    (h : r.robotId.isSome = true) :
    matchesQuery toLowerCase q r = .ok (keeps toLowerCase q r) := by
  unfold matchesQuery keeps
  cases hr : r.robotId with
  | none => simp [hr] at h
  | some id => rfl

theorem keeps_iff (toLowerCase : JSString → JSString) (q : JSString) (r : Robot) :
    keeps toLowerCase q r = true ↔ IdContains toLowerCase q r := by
  unfold keeps IdContains
  cases hr : r.robotId with
  | none => simp
  | some id => simp [includes_iff]

theorem filteredRobots_eq_filter (toLowerCase : JSString → JSString) (S : List Robot)
    (q : JSString) (hid : ∀ r ∈ S, r.robotId.isSome = true) :
    filteredRobots toLowerCase S q = .ok (S.filter (keeps toLowerCase q)) :=
  arrayFilter_total _ _ S (fun r hr => matchesQuery_of_isSome toLowerCase q r (hid r hr))

theorem run_append (s : DashboardState) (es fs : List Event) :
    run s (es ++ fs) = run (run s es) fs := by
  simp [run, List.foldl_append]

theorem step_robots (s : DashboardState) (e : Event) :
    (step s e).robots = match arrivalRobots e with
      | some (some robots) => robots
      | some none => []
      | none => s.robots := by
  cases e with
  | pullResolved data => rcases data with _ | (_ | robots) <;> rfl
  | pullRejected => rfl
  | message data => rcases data with _ | (_ | robots) <;> rfl
  | searchChange value => rfl
  | showLocation location =>
    simp only [step, handleShowLocation, arrivalRobots]
    split
    · split <;> rfl
    · rfl
  | filterClick => rfl

theorem step_stats (s : DashboardState) (e : Event)
    (h : calculateStats s.robots s = s) :
    calculateStats (step s e).robots (step s e) = step s e := by
  cases e with
  | pullResolved data =>
    rcases data with _ | (_ | robots)
    · exact h
    · rfl
    · rfl
  | pullRejected => exact h
  | message data =>
    rcases data with _ | (_ | robots)
    · exact h
    · rfl
    · rfl
  | searchChange value =>
    have h2 := congrArg (handleSearchChange value) h
    exact h2
  | showLocation location =>
    have h2 := congrArg DashboardState.robotStats h
    simp only [step, handleShowLocation]
    split
    · split
      · simpa [calculateStats, setRobotStats, setSelectedLocation] using h2
      · simpa [calculateStats, setRobotStats, setSelectedLocation] using h2
    · simpa [calculateStats, setRobotStats, setSelectedLocation] using h2
  | filterClick =>
    have h2 := congrArg DashboardState.robotStats h
    simpa [step, toggleFilter, calculateStats, setRobotStats, setFilterVisible] using h2

theorem run_robots (s : DashboardState) (events : List Event) :
    (run s events).robots = match (events.filterMap arrivalRobots).getLast? with
      | some (some robots) => robots
      | some none => []
      | none => s.robots := by
  induction events using List.reverseRecOn with
  | nil => rfl
  | append_singleton es e ih =>
    rw [run_append]
    show (step (run s es) e).robots = _
    rw [step_robots, List.filterMap_append]
    cases he : arrivalRobots e with
    | none => simpa [List.filterMap_cons, he] using ih
    | some field => cases field <;> simp [List.filterMap_cons, he]

theorem run_stats (events : List Event) :
    calculateStats (run initialState events).robots (run initialState events)
      = run initialState events := by
  induction events using List.reverseRecOn with
  | nil => rfl
  | append_singleton es e ih =>
    rw [run_append]
    exact step_stats (run initialState es) e ih

/-! ## Fleet metrics -/

/-- C1, evaluated on the code: for the snapshot holding one robot whose battery
percentage is exactly 20, `calculateStats` stores a low-battery count of 0,
while one robot of the snapshot has a battery percentage of at most 20 and the
row test `isLowBattery` marks that robot as low on battery. -/
theorem calculateStats_lowBattery_excludes_twenty :
    (calculateStats [r20] initialState).robotStats.lowBattery = 0
      ∧ ([r20].filter (fun robot => decide (robot.batteryPercentage ≤ 20))).length = 1
      ∧ isLowBattery r20 = true := by
  decide

/-- The low-battery count stored by `calculateStats` is the number of robots
whose battery percentage is strictly below 20. -/
theorem calculateStats_lowBattery (S : List Robot) (s : DashboardState) :
    (calculateStats S s).robotStats.lowBattery
      = S.countP (fun robot => decide (robot.batteryPercentage < 20)) := by
  simp [calculateStats, setRobotStats, List.countP_eq_length_filter]

/-- C2: for every snapshot `S`, `calculateStats` stores `totalRobots` equal to
the length of `S` and `totalOnline` equal to the number of robots of `S` whose
online flag is true, so `totalOnline` is at most `totalRobots`; on the empty
snapshot it stores all-zero metrics. -/
theorem calculateStats_total_online (S : List Robot) (s : DashboardState) :
    (calculateStats S s).robotStats.totalRobots = S.length
      ∧ (calculateStats S s).robotStats.totalOnline
          = S.countP (fun robot => decide (robot.online = true))
      ∧ 0 ≤ (calculateStats S s).robotStats.totalOnline
      ∧ (calculateStats S s).robotStats.totalOnline
          ≤ (calculateStats S s).robotStats.totalRobots
      ∧ (calculateStats [] s).robotStats
          = { totalRobots := 0, totalOnline := 0, lowBattery := 0 } := by
  refine ⟨rfl, ?_, Nat.zero_le _, ?_, rfl⟩
  · simp [calculateStats, setRobotStats, List.countP_eq_length_filter]
  · exact List.length_filter_le _ S

/-! ## Filtered view -/

/-- C3: when every robot of `S` has a string id, `filteredRobots` returns a
list `out` that is a subsequence of `S` in the order of `S`, that holds a robot
exactly when the robot is in `S` and its lowercased id contains the lowercased
query as a substring, and that holds each such robot as many times as `S`
does. -/
theorem filteredRobots_subsequence_of_matches (toLowerCase : JSString → JSString)
    (S : List Robot) (q : JSString) (hid : ∀ r ∈ S, r.robotId.isSome = true) :
    ∃ out, filteredRobots toLowerCase S q = .ok out
      ∧ out.Sublist S
      ∧ (∀ r, r ∈ out ↔ r ∈ S ∧ IdContains toLowerCase q r)
      ∧ (∀ r, IdContains toLowerCase q r → out.count r = S.count r)
      ∧ (∀ r, ¬ IdContains toLowerCase q r → out.count r = 0) := by
  refine ⟨S.filter (keeps toLowerCase q), filteredRobots_eq_filter toLowerCase S q hid,
    List.filter_sublist S, ?_, ?_, ?_⟩
  · intro r
    rw [List.mem_filter, keeps_iff]
  · intro r hr
    exact List.count_filter ((keeps_iff toLowerCase q r).mpr hr)
  · intro r hr
    rw [List.count_eq_zero, List.mem_filter, keeps_iff]
    exact fun h => hr h.2

theorem filteredRobots_subsequence_of_matches_witness :
    (∀ r ∈ [r1, r2, r20], r.robotId.isSome = true)
      ∧ ∃ out, filteredRobots asciiLower [r1, r2, r20] "r2".toList = .ok out
        ∧ out.Sublist [r1, r2, r20]
        ∧ (∀ r, r ∈ out ↔ r ∈ [r1, r2, r20] ∧ IdContains asciiLower "r2".toList r)
        ∧ (∀ r, IdContains asciiLower "r2".toList r → out.count r = [r1, r2, r20].count r)
        ∧ (∀ r, ¬ IdContains asciiLower "r2".toList r → out.count r = 0) :=
  ⟨by decide,
   filteredRobots_subsequence_of_matches asciiLower [r1, r2, r20] "r2".toList (by decide)⟩

/-- C4: when lowercasing the empty string gives the empty string and every
robot of `S` has a string id, `filteredRobots` with the empty query returns
`S` itself. -/
theorem filteredRobots_empty_query (toLowerCase : JSString → JSString)
    (hempty : toLowerCase [] = []) (S : List Robot)
    (hid : ∀ r ∈ S, r.robotId.isSome = true) :
    filteredRobots toLowerCase S [] = .ok S := by
  rw [filteredRobots_eq_filter toLowerCase S [] hid]
  congr 1
  rw [List.filter_eq_self]
  intro r hr
  rw [keeps_iff]
  cases hr2 : r.robotId with
  | none =>
    have := hid r hr
    simp [hr2] at this
  | some id => exact ⟨id, hr2, by rw [hempty]; exact List.nil_infix⟩

theorem filteredRobots_empty_query_witness :
    asciiLower [] = [] ∧ (∀ r ∈ [r1, r2, r20], r.robotId.isSome = true)
      ∧ filteredRobots asciiLower [r1, r2, r20] [] = .ok [r1, r2, r20] :=
  ⟨rfl, by decide, filteredRobots_empty_query asciiLower rfl [r1, r2, r20] (by decide)⟩

/-- C5: for every snapshot `S`, two queries with the same lowercase form give
the same filtered view; and rewriting the ids of `S` by a function that keeps
their lowercase form selects the same robots, at the same positions. -/
theorem filteredRobots_case_insensitive (toLowerCase : JSString → JSString)
    (S : List Robot) (q1 q2 : JSString) (f : JSString → JSString)
    (hq : toLowerCase q1 = toLowerCase q2)
    (hf : ∀ r ∈ S, (mapId f r).robotId.map toLowerCase = r.robotId.map toLowerCase) :
    filteredRobots toLowerCase S q1 = filteredRobots toLowerCase S q2
      ∧ filteredRobots toLowerCase (S.map (mapId f)) q1
          = (filteredRobots toLowerCase S q2).map (List.map (mapId f)) := by
  have h12 : filteredRobots toLowerCase S q1 = filteredRobots toLowerCase S q2 := by
    apply arrayFilter_congr
    intro r _
    simp only [matchesQuery, hq]
  refine ⟨h12, ?_⟩
  rw [← h12]
  apply arrayFilter_map
  intro r hr
  have h := hf r hr
  unfold matchesQuery
  cases hr2 : r.robotId with
  | none => simp [mapId, hr2]
  | some id =>
    simp only [mapId, hr2, Option.map_some', Option.some.injEq] at h
    simp [mapId, hr2, h]

theorem filteredRobots_case_insensitive_witness :
    asciiLower "bot1".toList = asciiLower "BOT1".toList
      ∧ (∀ r ∈ [r1, bot1, r2], (mapId (List.map Char.toUpper) r).robotId.map asciiLower
            = r.robotId.map asciiLower)
      ∧ filteredRobots asciiLower [r1, bot1, r2] "bot1".toList
          = filteredRobots asciiLower [r1, bot1, r2] "BOT1".toList
      ∧ filteredRobots asciiLower ([r1, bot1, r2].map (mapId (List.map Char.toUpper)))
            "bot1".toList
          = (filteredRobots asciiLower [r1, bot1, r2] "BOT1".toList).map
              (List.map (mapId (List.map Char.toUpper))) :=
  ⟨by decide, by decide,
   filteredRobots_case_insensitive asciiLower [r1, bot1, r2] "bot1".toList "BOT1".toList
     (List.map Char.toUpper) (by decide) (by decide)⟩

/-! ## Location toggle -/

/-- C6: from a state that shows no location, `handleShowLocation L` applied
twice shows no location again; and for two coordinate pairs `L1`, `L2` that
differ in at least one component, `handleShowLocation L1` followed by
`handleShowLocation L2` shows `L2`, which is neither `L1` nor no location. -/
theorem handleShowLocation_toggle (s : DashboardState) (hs : s.selectedLocation = none)
    (L L1 L2 : Location) (hne : L1.1 ≠ L2.1 ∨ L1.2 ≠ L2.2) :
    (handleShowLocation L (handleShowLocation L s)).selectedLocation = none
      ∧ (handleShowLocation L2 (handleShowLocation L1 s)).selectedLocation = some L2
      ∧ (handleShowLocation L2 (handleShowLocation L1 s)).selectedLocation ≠ some L1
      ∧ (handleShowLocation L2 (handleShowLocation L1 s)).selectedLocation ≠ none := by
  have h2 : (handleShowLocation L2 (handleShowLocation L1 s)).selectedLocation = some L2 := by
    have hcond : ¬ (L1.1 = L2.1 ∧ L1.2 = L2.2) := by
      rintro ⟨ha, hb⟩
      rcases hne with h | h
      · exact h ha
      · exact h hb
    simp [handleShowLocation, hs, setSelectedLocation, hcond]
  refine ⟨?_, h2, ?_, ?_⟩
  · simp [handleShowLocation, hs, setSelectedLocation]
  · rw [h2]
    intro h
    have h3 : L2 = L1 := Option.some.inj h
    rcases hne with h4 | h4
    · exact h4 (by rw [h3])
    · exact h4 (by rw [h3])
  · rw [h2]
    exact Option.some_ne_none L2

theorem handleShowLocation_toggle_witness :
    initialState.selectedLocation = none
      ∧ (((1, 2) : Location).1 ≠ ((1, 3) : Location).1
          ∨ ((1, 2) : Location).2 ≠ ((1, 3) : Location).2)
      ∧ (handleShowLocation (5, 6) (handleShowLocation (5, 6) initialState)).selectedLocation
          = none
      ∧ (handleShowLocation (1, 3) (handleShowLocation (1, 2) initialState)).selectedLocation
          = some (1, 3)
      ∧ (handleShowLocation (1, 3) (handleShowLocation (1, 2) initialState)).selectedLocation
          ≠ some (1, 2)
      ∧ (handleShowLocation (1, 3) (handleShowLocation (1, 2) initialState)).selectedLocation
          ≠ none :=
  ⟨rfl, by decide,
   handleShowLocation_toggle initialState rfl (5, 6) (1, 2) (1, 3) (by decide)⟩

/-! ## Snapshot replacement -/

/-- C7: after any finite sequence of events applied to the initial state, the
held snapshot is the robots delivered by the last arrival event that did not
fail (a resolved pull or a push message), in the order the events completed:
the array under its `robots` key, the empty sequence when the key is missing,
and the empty sequence when no arrival succeeded.  When two robots are held, a
push then delivers one robot and the pull then resolves with three, the three
robots of the pull are held.  A rejected pull leaves the whole state, the held
snapshot and the metrics included, as it was. -/
theorem run_robots_last_arrival (events : List Event) (s : DashboardState) :
    (run initialState events).robots = lastSnapshot events
      ∧ (run holdingTwo [.message (.object (some [r20])),
            .pullResolved (.object (some [r1, r2, r20]))]).robots = [r1, r2, r20]
      ∧ step s .pullRejected = s
      ∧ (step s .pullRejected).robots = s.robots
      ∧ (step s .pullRejected).robotStats = s.robotStats := by
  refine ⟨?_, rfl, rfl, rfl, rfl⟩
  rw [run_robots]
  unfold lastSnapshot
  rcases (events.filterMap arrivalRobots).getLast? with _ | (_ | robots) <;> rfl

/-- The last arrival decides the held snapshot also when the pull was issued
first and completed last: a push of one robot followed by the completion of a
pull of three robots holds the three, and the reverse order holds the one. -/
theorem run_replace_wins :
    (run holdingTwo [.message (.object (some [r20])),
        .pullResolved (.object (some [r1, r2, r20]))]).robots = [r1, r2, r20]
      ∧ (run holdingTwo [.pullResolved (.object (some [r1, r2, r20])),
        .message (.object (some [r20]))]).robots = [r20] :=
  ⟨rfl, rfl⟩

/-- C8: in every state reached from the initial state by any sequence of
events, the stored `robotStats` are the ones `calculateStats` stores for the
held `robots`. -/
theorem reachable_robotStats_eq_calculateStats (events : List Event) (s0 : DashboardState) :
    (run initialState events).robotStats
      = (calculateStats (run initialState events).robots s0).robotStats := by
  have h := congrArg DashboardState.robotStats (run_stats events)
  rw [← h]
  rfl

/-- C9 as the claim states it fails: the body `null` has no `robots` field, yet
a pull that resolves with it while the robots `r1`, `r2` are held leaves both
robots held and the metrics at 2 robots, 1 online, 1 low on battery, instead of
the empty snapshot and all-zero metrics. -/
theorem null_body_pull_keeps_snapshot :
    robotsField .nullish = none
      ∧ (fetchRobots (.ok .nullish) holdingTwo).robots = [r1, r2]
      ∧ (fetchRobots (.ok .nullish) holdingTwo).robots ≠ []
      ∧ (fetchRobots (.ok .nullish) holdingTwo).robotStats
          = { totalRobots := 2, totalOnline := 1, lowBattery := 1 }
      ∧ (fetchRobots (.ok .nullish) holdingTwo).robotStats
          ≠ { totalRobots := 0, totalOnline := 0, lowBattery := 0 } := by
  decide

/-- The message listener throws a `TypeError` on a `null` or `undefined` body
and writes nothing. -/
theorem onMessage_nullish (s : DashboardState) :
    onMessage .nullish s = { state := s, thrown := some .typeError } :=
  rfl

/-- C9, amended: a pull response or a push message whose body is not
`null`/`undefined` and has no `robots` field is applied as the empty snapshot:
afterwards the held snapshot is empty and the metrics are all zero, the
listener throws nothing, and the filtered view of the new state is computed
without an exception.  A pull response whose body is `null` or `undefined`
ends in the `catch` branch, which leaves the whole state as it was. -/
theorem missing_robots_is_empty_snapshot (data : Payload) (s : DashboardState)
    (toLowerCase : JSString → JSString)
    (hbody : data ≠ .nullish) (hfield : robotsField data = none) :
    (fetchRobots (.ok data) s).robots = []
      ∧ (fetchRobots (.ok data) s).robotStats
          = { totalRobots := 0, totalOnline := 0, lowBattery := 0 }
      ∧ (onMessage data s).state.robots = []
      ∧ (onMessage data s).state.robotStats
          = { totalRobots := 0, totalOnline := 0, lowBattery := 0 }
      ∧ (onMessage data s).thrown = none
      ∧ filteredRobots toLowerCase (fetchRobots (.ok data) s).robots
          (fetchRobots (.ok data) s).searchQuery = .ok []
      ∧ filteredRobots toLowerCase (onMessage data s).state.robots
          (onMessage data s).state.searchQuery = .ok []
      ∧ fetchRobots (.ok .nullish) s = s := by
  rcases data with _ | (_ | robots)
  · exact absurd rfl hbody
  · exact ⟨rfl, rfl, rfl, rfl, rfl, rfl, rfl, rfl⟩
  · simp [robotsField] at hfield

theorem missing_robots_is_empty_snapshot_witness :
    Payload.object none ≠ .nullish ∧ robotsField (.object none) = none
      ∧ (fetchRobots (.ok (.object none)) holdingTwo).robots = []
      ∧ (fetchRobots (.ok (.object none)) holdingTwo).robotStats
          = { totalRobots := 0, totalOnline := 0, lowBattery := 0 }
      ∧ (onMessage (.object none) holdingTwo).state.robots = []
      ∧ (onMessage (.object none) holdingTwo).state.robotStats
          = { totalRobots := 0, totalOnline := 0, lowBattery := 0 }
      ∧ (onMessage (.object none) holdingTwo).thrown = none
      ∧ filteredRobots asciiLower (fetchRobots (.ok (.object none)) holdingTwo).robots
          (fetchRobots (.ok (.object none)) holdingTwo).searchQuery = .ok []
      ∧ filteredRobots asciiLower (onMessage (.object none) holdingTwo).state.robots
          (onMessage (.object none) holdingTwo).state.searchQuery = .ok []
      ∧ fetchRobots (.ok .nullish) holdingTwo = holdingTwo :=
  ⟨by decide, rfl,
   missing_robots_is_empty_snapshot (.object none) holdingTwo asciiLower (by decide) rfl⟩

/-- C10: a resolved pull or a push message, with any body, leaves
`selectedLocation` and `searchQuery` as they were; a location toggle or a
search change leaves `robots` and `robotStats` as they were. -/
theorem replacement_and_selection_frames (s : DashboardState) (data : Payload)
    (location : Location) (value : JSString) :
    (fetchRobots (.ok data) s).selectedLocation = s.selectedLocation
      ∧ (fetchRobots (.ok data) s).searchQuery = s.searchQuery
      ∧ (onMessage data s).state.selectedLocation = s.selectedLocation
      ∧ (onMessage data s).state.searchQuery = s.searchQuery
      ∧ (handleShowLocation location s).robots = s.robots
      ∧ (handleShowLocation location s).robotStats = s.robotStats
      ∧ (handleSearchChange value s).robots = s.robots
      ∧ (handleSearchChange value s).robotStats = s.robotStats := by
  have hpull : (fetchRobots (.ok data) s).selectedLocation = s.selectedLocation
      ∧ (fetchRobots (.ok data) s).searchQuery = s.searchQuery := by
    rcases data with _ | (_ | robots) <;> exact ⟨rfl, rfl⟩
  have hpush : (onMessage data s).state.selectedLocation = s.selectedLocation
      ∧ (onMessage data s).state.searchQuery = s.searchQuery := by
    rcases data with _ | (_ | robots) <;> exact ⟨rfl, rfl⟩
  refine ⟨hpull.1, hpull.2, hpush.1, hpush.2, ?_, ?_, rfl, rfl⟩
  · unfold handleShowLocation
    split
    · split <;> rfl
    · rfl
  · unfold handleShowLocation
    split
    · split <;> rfl
    · rfl

end RobotDashboard
